import Mathlib

/-!
Verification of the tickersnap stock-scorecard subsystem and MMI validation.

The raw API models are embedded from `src/tickersnap/stock/models.py`.
Pydantic field validation is embedded as a parser from an untyped Python
value (`Py`) into the typed model structures: pydantic checks field
presence and field types only, since the model classes declare no custom
validators.

The scorecard operations module (`tickersnap/stock/scorecard.py`) and the
user-facing models (`Score`, `ScoreRating`, `StockScores`,
`StockWithScorecard`) are not present in the source tree (only their tests
and callers are), so those definitions are modelled from the specification,
as marked on each definition.

The MMI period validation is embedded from `src/tickersnap/mmi/mmi.py`.
-/

/-- An untyped Python value, as handed to pydantic model validation:
strings, ints, bools, None, lists and dicts. Python floats do not occur in
the claims under verification and are not modelled. -/
inductive Py where
  | str (s : String)
  | int (n : Int)
  | bool (b : Bool)
  | null
  | list (xs : List Py)
  | dict (kvs : List (String × Py))

/-- Python dict key lookup (first binding wins; Python dict keys are unique). -/
def Py.lookup : List (String × Py) → String → Option Py
  | [], _ => none
  | (k, v) :: rest, key => if k = key then some v else Py.lookup rest key

/-- Python `str(x)` rendering, used where the code stringifies an `Any` value. -/
def Py.render : Py → String
  | .str s => s
  | .int n => toString n
  | .bool b => if b then "True" else "False"
  | .null => "None"
  | .list _ => "[...]"
  | .dict _ => "\x7b...\x7d"

/-- Pydantic check for a required `str` field. -/
def reqStr (kvs : List (String × Py)) (k : String) : Except String String :=
  match Py.lookup kvs k with
  | some (.str s) => .ok s
  | _ => .error (k ++ ": a string is required")

/-- Pydantic check for an `Optional[str]` field defaulting to `None`. -/
def optStr (kvs : List (String × Py)) (k : String) : Except String (Option String) :=
  match Py.lookup kvs k with
  | none => .ok none
  | some .null => .ok none
  | some (.str s) => .ok (some s)
  | some _ => .error (k ++ ": a string or None is required")

/-- Pydantic check for a required `bool` field. -/
def reqBool (kvs : List (String × Py)) (k : String) : Except String Bool :=
  match Py.lookup kvs k with
  | some (.bool b) => .ok b
  | _ => .error (k ++ ": a bool is required")

/-- Pydantic check for a required `int` field. -/
def reqInt (kvs : List (String × Py)) (k : String) : Except String Int :=
  match Py.lookup kvs k with
  | some (.int n) => .ok n
  | _ => .error (k ++ ": an int is required")

/-- Pydantic check for an `Optional` numeric field defaulting to `None`. -/
def optInt (kvs : List (String × Py)) (k : String) : Except String (Option Int) :=
  match Py.lookup kvs k with
  | none => .ok none
  | some .null => .ok none
  | some (.int n) => .ok (some n)
  | some _ => .error (k ++ ": a number or None is required")

/-- Pydantic read of an `Optional[Any]` field: any value is accepted,
absence and `None` both give `None`. -/
def optAny (kvs : List (String × Py)) (k : String) : Option Py :=
  match Py.lookup kvs k with
  | none => none
  | some .null => none
  | some v => some v

/-- `ScoreData` from `src/tickersnap/stock/models.py`: score information for
the four score categories. The `Optional[float]` value is carried over the
embedding's integers (no claim inspects it). -/
structure ScoreData where
  percentage : Bool
  max : Int
  value : Option Int
  key : String

/-- `ScorecardElement` from `src/tickersnap/stock/models.py`: one element of
an entry-point or red-flag category. The `Optional[Any]` fields hold an
arbitrary Python value. -/
structure ScorecardElement where
  title : String
  type : String
  description : Option String
  flag : Option String
  display : Bool
  score : Option Py
  source : Option String

/-- `ScorecardItem` from `src/tickersnap/stock/models.py`: one scorecard
category item. -/
structure ScorecardItem where
  name : String
  tag : Option String
  type : String
  description : Option String
  colour : Option String
  score : Option ScoreData
  rank : Option Py
  peers : Option Py
  locked : Bool
  callout : Option Py
  comment : Option String
  stack : Int
  elements : List ScorecardElement

/-- `ScorecardResponse` from `src/tickersnap/stock/models.py`. -/
structure ScorecardResponse where
  success : Bool
  data : Option (List ScorecardItem)

/-- Pydantic validation of `ScoreData` from an untyped value: field presence
and types as declared in `src/tickersnap/stock/models.py`, no custom
validators. -/
def validate_score_data (v : Py) : Except String ScoreData :=
  match v with
  | .dict kvs => do
    let percentage ← reqBool kvs "percentage"
    let mx ← reqInt kvs "max"
    let value ← optInt kvs "value"
    let key ← reqStr kvs "key"
    .ok { percentage := percentage, max := mx, value := value, key := key }
  | _ => .error "ScoreData: a dict is required"

/-- Pydantic validation of `ScorecardElement` from an untyped value
(`src/tickersnap/stock/models.py`): field presence and types only. -/
def validate_scorecard_element (v : Py) : Except String ScorecardElement :=
  match v with
  | .dict kvs => do
    let title ← reqStr kvs "title"
    let ty ← reqStr kvs "type"
    let description ← optStr kvs "description"
    let flag ← optStr kvs "flag"
    let display ← reqBool kvs "display"
    let source ← optStr kvs "source"
    .ok { title := title, type := ty, description := description, flag := flag,
          display := display, score := optAny kvs "score", source := source }
  | _ => .error "ScorecardElement: a dict is required"

/-- Pydantic validation of `ScorecardItem` from an untyped value
(`src/tickersnap/stock/models.py`): field presence and types only; the
class declares no validator relating `type`, `score` and `elements`. -/
def validate_scorecard_item (v : Py) : Except String ScorecardItem :=
  match v with
  | .dict kvs => do
    let name ← reqStr kvs "name"
    let tag ← optStr kvs "tag"
    let ty ← reqStr kvs "type"
    let description ← optStr kvs "description"
    let colour ← optStr kvs "colour"
    let score ← match Py.lookup kvs "score" with
      | none => Except.ok none
      | some .null => Except.ok none
      | some d => (validate_score_data d).map some
    let locked ← reqBool kvs "locked"
    let comment ← optStr kvs "comment"
    let stack ← reqInt kvs "stack"
    let elements ← match Py.lookup kvs "elements" with
      | none => Except.ok []
      | some (.list xs) => xs.mapM validate_scorecard_element
      | some _ => Except.error "elements: a list is required"
    .ok { name := name, tag := tag, type := ty, description := description,
          colour := colour, score := score, rank := optAny kvs "rank",
          peers := optAny kvs "peers", locked := locked,
          callout := optAny kvs "callout", comment := comment,
          stack := stack, elements := elements }
  | _ => .error "ScorecardItem: a dict is required"

/-- Modelled from the spec: the tri-state-plus-unknown rating enum
(`ScoreRating` of `tickersnap/stock/models.py`, absent from the source
tree; spec section 3, NormalizedScore.rating). -/
inductive ScoreRating where
  | good
  | bad
  | okay
  | unknown
deriving DecidableEq, Repr

/-- Modelled from the spec: the user-facing `Score` model
(`tickersnap/stock/models.py`, absent from the source tree; spec section 3,
NormalizedScore: name, description, value with default display label
"Unknown", rating). -/
structure Score where
  name : String
  description : String
  value : String
  rating : ScoreRating
deriving DecidableEq, Repr

/-- Modelled from the spec: the per-stock aggregate `StockScores`
(`tickersnap/stock/models.py`, absent from the source tree; spec section 3). -/
structure StockScores where
  performance : Option Score
  valuation : Option Score
  growth : Option Score
  profitability : Option Score
  entry_point : Option Score
  entry_point_elements : Option (List Score)
  red_flags : Option Score
  red_flags_elements : Option (List Score)
deriving DecidableEq, Repr

/-- The all-null `StockScores` (every field absent). -/
def StockScores.empty : StockScores :=
  { performance := none, valuation := none, growth := none, profitability := none,
    entry_point := none, entry_point_elements := none,
    red_flags := none, red_flags_elements := none }

/-- Modelled from the spec: the caller-supplied identity record
(`AssetData` of `tickersnap/lists/models.py`, absent from the source tree;
spec section 4.3 names id, asset name and ticker as its content). -/
structure AssetData where
  sid : String
  name : String
  ticker : String
deriving DecidableEq, Repr

/-- Modelled from the spec: `StockWithScorecard`
(`tickersnap/stock/models.py`, absent from the source tree; spec section 3:
pairs an identity record with `StockScores` or null). -/
structure StockWithScorecard where
  asset : AssetData
  scorecard : Option StockScores
deriving DecidableEq, Repr

/-- Python `str.lower()`, embedded character-wise over the string's data
(the library's own `String.toLower` is extensionally the same map but its
recursion does not evaluate inside the kernel). -/
def pyLower (s : String) : String :=
  ⟨s.data.map Char.toLower⟩

/-- Modelled from the spec: the colour classifier (`_determine_rating` of
`tickersnap/stock/scorecard.py`, absent from the source tree; spec section
4.1: case-insensitive; green to GOOD, red to BAD, yellow and orange to
OKAY, everything else including None to UNKNOWN). -/
def determine_rating : Option String → ScoreRating
  | none => .unknown
  | some c =>
    if pyLower c = "green" then .good
    else if pyLower c = "red" then .bad
    else if pyLower c = "yellow" then .okay
    else if pyLower c = "orange" then .okay
    else .unknown

/-- Modelled from the spec: the flag classifier
(`_determine_rating_from_flag` of `tickersnap/stock/scorecard.py`, absent
from the source tree; spec section 4.1: case-insensitive; high to GOOD,
low to BAD, avg to OKAY, everything else including None to UNKNOWN). -/
def determine_rating_from_flag : Option String → ScoreRating
  | none => .unknown
  | some f =>
    if pyLower f = "high" then .good
    else if pyLower f = "low" then .bad
    else if pyLower f = "avg" then .okay
    else .unknown

/-- Modelled from the spec: `_create_score_from_item` of
`tickersnap/stock/scorecard.py` (absent from the source tree; spec section
4.2: value is the tag if present else "Unknown", description is the item
description if present else "name assessment", rating classifies the
colour). -/
def create_score_from_item (item : ScorecardItem) : Score :=
  { name := item.name
    description := item.description.getD (item.name ++ " assessment")
    value := item.tag.getD "Unknown"
    rating := determine_rating item.colour }

/-- Modelled from the spec: `_create_scores_from_elements` of
`tickersnap/stock/scorecard.py` (absent from the source tree; spec section
4.2: per element, value is the flag if present else the stringified score
if present else "Unknown", description defaults to "title assessment",
rating classifies the element's own flag). -/
def create_scores_from_elements (elements : List ScorecardElement) : List Score :=
  elements.map fun e =>
    { name := e.title
      description := e.description.getD (e.title ++ " assessment")
      value := e.flag.getD ((e.score.map Py.render).getD "Unknown")
      rating := determine_rating_from_flag e.flag }

/-- Modelled from the spec: the per-item dispatch of
`_transform_scorecard_response` (`tickersnap/stock/scorecard.py`, absent
from the source tree; spec section 4.2: dispatch on the exact category
name; Entry point and Red flags additionally populate their element lists;
unrecognized names are dropped). -/
def apply_scorecard_item (scores : StockScores) (item : ScorecardItem) : StockScores :=
  if item.name = "Performance" then
    { scores with performance := some (create_score_from_item item) }
  else if item.name = "Valuation" then
    { scores with valuation := some (create_score_from_item item) }
  else if item.name = "Growth" then
    { scores with growth := some (create_score_from_item item) }
  else if item.name = "Profitability" then
    { scores with profitability := some (create_score_from_item item) }
  else if item.name = "Entry point" then
    { scores with entry_point := some (create_score_from_item item),
                  entry_point_elements := some (create_scores_from_elements item.elements) }
  else if item.name = "Red flags" then
    { scores with red_flags := some (create_score_from_item item),
                  red_flags_elements := some (create_scores_from_elements item.elements) }
  else scores

/-- Modelled from the spec: `_transform_scorecard_response` of
`tickersnap/stock/scorecard.py` (absent from the source tree; spec section
4.2: a failed response or an absent or empty item list yields the all-null
`StockScores`; otherwise the items are folded into the named fields). -/
def transform_scorecard_response (r : ScorecardResponse) : StockScores :=
  match r.success, r.data with
  | true, some (item :: rest) => (item :: rest).foldl apply_scorecard_item StockScores.empty
  | _, _ => StockScores.empty

/-- Modelled from the spec: `get_scorecard` of
`tickersnap/stock/scorecard.py` (absent from the source tree; spec section
6: single-item fetch plus transform, fetch errors propagate to the
caller). The external fetch collaborator is a parameter; a raised error is
its `Except.error` result. -/
def get_scorecard (fetch : String → Except String ScorecardResponse)
    (sid : String) : Except String StockScores :=
  (fetch sid).map transform_scorecard_response

/-- Modelled from the spec: one batch unit of work (fetch then transform,
any fetch error becomes a null result; spec section 4.3, part of
`tickersnap/stock/scorecard.py`, absent from the source tree). -/
def fetch_unit (fetch : String → Except String ScorecardResponse)
    (sid : String) : Option StockScores :=
  match fetch sid with
  | .ok r => some (transform_scorecard_response r)
  | .error _ => none

/-- Modelled from the spec: `get_stock_with_scorecard` of
`tickersnap/stock/scorecard.py` (absent from the source tree; spec section
6: pairs the asset with its scorecard, swallowing fetch and transform
errors into a null scorecard field). -/
def get_stock_with_scorecard (fetch : String → Except String ScorecardResponse)
    (asset : AssetData) : StockWithScorecard :=
  { asset := asset, scorecard := fetch_unit fetch asset.sid }

/-- One progress-callback invocation: running completed count, total count,
and the id whose unit just completed (spec section 4.3). -/
structure ProgressEvent where
  completed : Nat
  total : Nat
  sid : String
deriving DecidableEq, Repr

/-- Outcome of one batch call: the result list (or the eager rejection),
the progress-callback invocations in order, and the ids actually fetched
in completion order. -/
structure BatchOutcome (α : Type) where
  result : Except String (List α)
  events : List ProgressEvent
  fetched : List String

/-- The unit of work dispatched for the i-th input id of `get_scorecards`. -/
def sid_unit (fetch : String → Except String ScorecardResponse)
    (sids : List String) (idx : Nat) : Option StockScores :=
  match sids[idx]? with
  | some sid => fetch_unit fetch sid
  | none => none

/-- The unit of work dispatched for the i-th input asset of
`get_stocks_with_scorecards`. -/
def stock_unit (fetch : String → Except String ScorecardResponse)
    (assets : List AssetData) (idx : Nat) : Option StockWithScorecard :=
  match assets[idx]? with
  | some a => some (get_stock_with_scorecard fetch a)
  | none => none

/-- Result collection of the worker pool: each completed unit writes its
result back at the index it was submitted for, in completion order. -/
def run_order (unit : Nat → α) : List Nat → List α → List α
  | [], acc => acc
  | idx :: rest, acc => run_order unit rest (acc.set idx (unit idx))

/-- Progress-callback invocations produced while completions arrive in the
given order: after each completion the running count, the total, and the
just-completed id are reported (spec section 4.3). -/
def progress_trace (total : Nat) (sids : List String) (completed : Nat) :
    List Nat → List ProgressEvent
  | [] => []
  | idx :: rest =>
    { completed := completed + 1, total := total, sid := (sids[idx]?).getD "" } ::
      progress_trace total sids (completed + 1) rest

/-- Modelled from the spec: `get_scorecards` of
`tickersnap/stock/scorecard.py` (absent from the source tree; spec
sections 4.3, 5 and 7: a non-positive worker count is rejected eagerly
before any work starts; empty input returns empty output without creating
a pool; otherwise every id is dispatched to the pool, completions arrive
in an arbitrary order — modelled by the `order` parameter listing input
indices in completion order — each completion writes its result back at
its input index and triggers one progress invocation when a callback was
supplied). -/
def get_scorecards (fetch : String → Except String ScorecardResponse)
    (sids : List String) (max_workers : Int) (hasCallback : Bool)
    (order : List Nat) : BatchOutcome (Option StockScores) :=
  if max_workers ≤ 0 then
    { result := .error "max_workers must be greater than 0", events := [], fetched := [] }
  else if sids.isEmpty then
    { result := .ok [], events := [], fetched := [] }
  else
    { result := .ok (run_order (sid_unit fetch sids) order
        (List.replicate sids.length none))
      events := if hasCallback then progress_trace sids.length sids 0 order else []
      fetched := order.map fun idx => (sids[idx]?).getD "" }

/-- Modelled from the spec: `get_stocks_with_scorecards` of
`tickersnap/stock/scorecard.py` (absent from the source tree; spec
sections 4.3 and 6: the identity-pairing companion of `get_scorecards`,
with the same pool, ordering, progress and rejection behaviour). -/
def get_stocks_with_scorecards (fetch : String → Except String ScorecardResponse)
    (assets : List AssetData) (max_workers : Int) (hasCallback : Bool)
    (order : List Nat) : BatchOutcome (Option StockWithScorecard) :=
  if max_workers ≤ 0 then
    { result := .error "max_workers must be greater than 0", events := [], fetched := [] }
  else if assets.isEmpty then
    { result := .ok [], events := [], fetched := [] }
  else
    { result := .ok (run_order (stock_unit fetch assets) order
        (List.replicate assets.length none))
      events := if hasCallback then
          progress_trace assets.length (assets.map AssetData.sid) 0 order
        else []
      fetched := order.map fun idx => ((assets[idx]?).map AssetData.sid).getD "" }

/-- A Python argument to `get_mmi_trends`: an int (Python bools pass the
`isinstance` check as ints 0 and 1 and are represented here as such) or a
value of any non-int type. -/
inductive PyPeriod where
  | int (n : Int)
  | nonInt
deriving DecidableEq, Repr

/-- Default `period` of `MarketMoodIndex.get_mmi_trends`
(`src/tickersnap/mmi/mmi.py`). -/
def mmiTrendsDefaultPeriod : Int := 10

/-- The period validation of `MarketMoodIndex.get_mmi_trends`
(`src/tickersnap/mmi/mmi.py`): raise ValueError unless the argument is an
int with 1 <= period <= 10. -/
def get_mmi_trends_period_check : PyPeriod → Except String Unit
  | .int n =>
    if 1 ≤ n ∧ n ≤ 10 then .ok ()
    else .error "Period must be an integer between 1 and 10"
  | .nonInt => .error "Period must be an integer between 1 and 10"

/-- A concrete fetch collaborator used to exercise the theorems: it raises
for id "B" and returns an empty successful response otherwise. -/
def wfetch : String → Except String ScorecardResponse :=
  fun sid => if sid = "B" then .error "boom" else .ok { success := true, data := some [] }

/-- A concrete asset whose id makes `wfetch` raise. -/
def wassetB : AssetData := { sid := "B", name := "B Corp", ticker := "B" }

/-- A concrete score-kind Performance item. -/
def witnessItem : ScorecardItem :=
  { name := "Performance", tag := some "High", type := "score", description := none,
    colour := some "green", score := none, rank := none, peers := none,
    locked := true, callout := none, comment := none, stack := 1, elements := [] }

/-- A concrete element flagged "high". -/
def highElement : ScorecardElement :=
  { title := "Debt", type := "flag", description := none, flag := some "high",
    display := true, score := none, source := none }

/-- A concrete red-flags category item with colour "red" containing
`highElement`. -/
def redFlagItem : ScorecardItem :=
  { name := "Red flags", tag := some "High", type := "redFlag", description := none,
    colour := some "red", score := none, rank := none, peers := none,
    locked := false, callout := none, comment := none, stack := 6,
    elements := [highElement] }

/-- A default `Score` used only to select elements from computed lists. -/
def defaultScore : Score := { name := "", description := "", value := "", rating := .unknown }

/-- An untyped payload for a `score`-kind item carrying a non-empty
elements list: every field a pydantic type check inspects is well typed. -/
def badItemPy : Py :=
  .dict [("name", .str "Performance"), ("type", .str "score"),
         ("locked", .bool true), ("stack", .int 1),
         ("elements", .list [.dict [("title", .str "Debt"), ("type", .str "flag"),
                                    ("display", .bool true)]])]

/-- The typed item that pydantic validation produces from `badItemPy`. -/
def expectedBadItem : ScorecardItem :=
  { name := "Performance", tag := none, type := "score", description := none,
    colour := none, score := none, rank := none, peers := none, locked := true,
    callout := none, comment := none, stack := 1,
    elements := [{ title := "Debt", type := "flag", description := none, flag := none,
                   display := true, score := none, source := none }] }

/-- An untyped payload for an `entryPoint`-kind item carrying a ScoreData
sub-object. -/
def entryWithScorePy : Py :=
  .dict [("name", .str "Entry point"), ("type", .str "entryPoint"),
         ("locked", .bool false), ("stack", .int 5),
         ("score", .dict [("percentage", .bool false), ("max", .int 10),
                          ("key", .str "entry")])]

/-- An untyped payload missing the required `name` field. -/
def missingNamePy : Py :=
  .dict [("type", .str "score"), ("locked", .bool true), ("stack", .int 1)]

theorem run_order_length (unit : Nat → α) (order : List Nat) :
    ∀ acc : List α, (run_order unit order acc).length = acc.length := by
  induction order with
  | nil => intro acc; rfl
  | cons idx rest ih =>
    intro acc
    simp only [run_order]
    rw [ih, List.length_set]

theorem run_order_getElem?_not_mem (unit : Nat → α) (order : List Nat) :
    ∀ (acc : List α) (i : Nat), i ∉ order →
      (run_order unit order acc)[i]? = acc[i]? := by
  induction order with
  | nil => intro acc i _; rfl
  | cons j rest ih =>
    intro acc i hi
    have hj : i ≠ j := by
      intro h
      exact hi (by simp [h])
    have hr : i ∉ rest := fun h => hi (by simp [h])
    simp only [run_order]
    rw [ih _ _ hr]
    exact List.getElem?_set_ne (Ne.symm hj)

theorem run_order_getElem?_mem (unit : Nat → α) (order : List Nat) :
    ∀ (acc : List α) (i : Nat), i ∈ order → i < acc.length →
      (run_order unit order acc)[i]? = some (unit i) := by
  induction order with
  | nil => intro acc i h _; exact absurd h (List.not_mem_nil i)
  | cons j rest ih =>
    intro acc i hmem hlt
    by_cases hr : i ∈ rest
    · simp only [run_order]
      exact ih _ _ hr (by rw [List.length_set]; exact hlt)
    · have hij : i = j := by
        rcases List.mem_cons.mp hmem with h | h
        · exact h
        · exact absurd h hr
      subst hij
      simp only [run_order]
      rw [run_order_getElem?_not_mem unit rest _ i hr]
      exact List.getElem?_set_eq_of_lt (unit i) hlt

theorem progress_trace_length (total : Nat) (sids : List String) (order : List Nat) :
    ∀ c : Nat, (progress_trace total sids c order).length = order.length := by
  induction order with
  | nil => intro c; rfl
  | cons j rest ih =>
    intro c
    simp only [progress_trace, List.length_cons, ih]

theorem progress_trace_total_eq (total : Nat) (sids : List String) (order : List Nat) :
    ∀ (c : Nat) (e : ProgressEvent), e ∈ progress_trace total sids c order →
      e.total = total := by
  induction order with
  | nil => intro c e he; exact absurd he (List.not_mem_nil e)
  | cons j rest ih =>
    intro c e he
    rcases List.mem_cons.mp he with h | h
    · rw [h]
    · exact ih (c + 1) e h

theorem progress_trace_map_completed (total : Nat) (sids : List String) (order : List Nat) :
    ∀ c : Nat, (progress_trace total sids c order).map ProgressEvent.completed
      = List.range' (c + 1) order.length := by
  induction order with
  | nil => intro c; rfl
  | cons j rest ih =>
    intro c
    simp only [progress_trace, List.map_cons, List.length_cons, List.range'_succ, ih]

theorem progress_trace_map_sid (total : Nat) (sids : List String) (order : List Nat) :
    ∀ c : Nat, (progress_trace total sids c order).map ProgressEvent.sid
      = order.map fun idx => (sids[idx]?).getD "" := by
  induction order with
  | nil => intro c; rfl
  | cons j rest ih =>
    intro c
    simp only [progress_trace, List.map_cons, ih]

theorem map_range_getD (l : List α) (d : α) :
    (List.range l.length).map (fun i => (l[i]?).getD d) = l := by
  apply List.ext_getElem
  · simp
  · intro i h1 h2
    simp [List.getElem?_eq_getElem h2]

/-- Claim C3: the rating classifiers are pure total functions on optional
string tokens, matching case-insensitively and never raising: for colours,
green maps to GOOD, red to BAD, yellow and orange to OKAY, and every other
input (including None, the empty string, and the literal tokens "null",
"nil" and "none" in any case) maps to UNKNOWN; for flags, high maps to
GOOD, low to BAD, avg to OKAY, and every other input maps to UNKNOWN. -/
theorem rating_classifiers_total_mapping :
    (∀ s : String, pyLower s = "green" → determine_rating (some s) = .good)
  ∧ (∀ s : String, pyLower s = "red" → determine_rating (some s) = .bad)
  ∧ (∀ s : String, pyLower s = "yellow" ∨ pyLower s = "orange" →
      determine_rating (some s) = .okay)
  ∧ (∀ s : String, pyLower s ≠ "green" → pyLower s ≠ "red" → pyLower s ≠ "yellow" →
      pyLower s ≠ "orange" → determine_rating (some s) = .unknown)
  ∧ determine_rating none = .unknown
  ∧ (∀ s : String, pyLower s = "high" → determine_rating_from_flag (some s) = .good)
  ∧ (∀ s : String, pyLower s = "low" → determine_rating_from_flag (some s) = .bad)
  ∧ (∀ s : String, pyLower s = "avg" → determine_rating_from_flag (some s) = .okay)
  ∧ (∀ s : String, pyLower s ≠ "high" → pyLower s ≠ "low" → pyLower s ≠ "avg" →
      determine_rating_from_flag (some s) = .unknown)
  ∧ determine_rating_from_flag none = .unknown := by
  refine ⟨?_, ?_, ?_, ?_, rfl, ?_, ?_, ?_, ?_, rfl⟩
  · intro s h; simp only [determine_rating, h]; decide
  · intro s h; simp only [determine_rating, h]; decide
  · intro s h
    rcases h with h | h <;> simp only [determine_rating, h] <;> decide
  · intro s h1 h2 h3 h4; simp [determine_rating, h1, h2, h3, h4]
  · intro s h; simp only [determine_rating_from_flag, h]; decide
  · intro s h; simp only [determine_rating_from_flag, h]; decide
  · intro s h; simp only [determine_rating_from_flag, h]; decide
  · intro s h1 h2 h3; simp [determine_rating_from_flag, h1, h2, h3]

/-- Witness for C3 at concrete tokens of varying case, including a
null-literal token. -/
theorem rating_classifiers_total_mapping_witness :
    determine_rating (some "GREEN") = .good
  ∧ determine_rating (some "Orange") = .okay
  ∧ determine_rating (some "NULL") = .unknown
  ∧ determine_rating none = .unknown
  ∧ determine_rating_from_flag (some "High") = .good
  ∧ determine_rating_from_flag (some "null") = .unknown := by
  refine ⟨?_, ?_, ?_, rating_classifiers_total_mapping.2.2.2.2.1, ?_, ?_⟩
  · exact rating_classifiers_total_mapping.1 "GREEN" (by decide)
  · exact rating_classifiers_total_mapping.2.2.1 "Orange" (Or.inr (by decide))
  · exact rating_classifiers_total_mapping.2.2.2.1 "NULL"
      (by decide) (by decide) (by decide) (by decide)
  · exact rating_classifiers_total_mapping.2.2.2.2.2.1 "High" (by decide)
  · exact rating_classifiers_total_mapping.2.2.2.2.2.2.2.2.1 "null"
      (by decide) (by decide) (by decide)

/-- Claim C4: for every response with success false, and for every response
whose data list is absent or empty, the transform returns a `StockScores`
in which every field, the element lists included, is null, regardless of
the content of data. -/
theorem transform_failed_or_empty_all_null (r : ScorecardResponse)
    (h : r.success = false ∨ r.data = none ∨ r.data = some []) :
    (transform_scorecard_response r).performance = none
  ∧ (transform_scorecard_response r).valuation = none
  ∧ (transform_scorecard_response r).growth = none
  ∧ (transform_scorecard_response r).profitability = none
  ∧ (transform_scorecard_response r).entry_point = none
  ∧ (transform_scorecard_response r).entry_point_elements = none
  ∧ (transform_scorecard_response r).red_flags = none
  ∧ (transform_scorecard_response r).red_flags_elements = none := by
  rcases r with ⟨s, d⟩
  have he : transform_scorecard_response ⟨s, d⟩ = StockScores.empty := by
    rcases h with h | h | h
    · have h2 : s = false := h
      subst h2
      cases d with
      | none => rfl
      | some l =>
        cases l with
        | nil => rfl
        | cons a t => rfl
    · have h2 : d = none := h
      subst h2
      cases s <;> rfl
    · have h2 : d = some [] := h
      subst h2
      cases s <;> rfl
  rw [he]
  exact ⟨rfl, rfl, rfl, rfl, rfl, rfl, rfl, rfl⟩

/-- Witness for C4 at a failed response that nevertheless carries a
non-empty data list. -/
theorem transform_failed_or_empty_all_null_witness :
    (transform_scorecard_response { success := false, data := some [witnessItem] }).performance = none
  ∧ (transform_scorecard_response { success := false, data := some [witnessItem] }).red_flags = none := by
  have h := transform_failed_or_empty_all_null
    { success := false, data := some [witnessItem] } (Or.inl rfl)
  exact ⟨h.1, h.2.2.2.2.2.2.1⟩

/-- Claim C5: the category-level rating is derived from the item's colour
via the colour classifier and each element-level rating is derived from
that element's own flag via the flag classifier, never from the category
colour; in particular a category with colour red yields rating BAD while
its element with flag high yields rating GOOD. -/
theorem ratings_derive_from_own_colour_and_flag :
    (∀ item : ScorecardItem,
      (create_score_from_item item).rating = determine_rating item.colour)
  ∧ (∀ elements : List ScorecardElement,
      (create_scores_from_elements elements).map Score.rating
        = elements.map fun e => determine_rating_from_flag e.flag)
  ∧ (∀ item : ScorecardItem, item.colour = some "red" →
      (create_score_from_item item).rating = .bad)
  ∧ (∀ e : ScorecardElement, e.flag = some "high" →
      ∀ s ∈ create_scores_from_elements [e], s.rating = .good) := by
  refine ⟨fun item => rfl, ?_, ?_, ?_⟩
  · intro elements
    simp [create_scores_from_elements, List.map_map]
  · intro item h
    have hr : (create_score_from_item item).rating = determine_rating item.colour := rfl
    rw [hr, h]
    decide
  · intro e hf s hs
    have hs2 : s = { name := e.title
                     description := e.description.getD (e.title ++ " assessment")
                     value := e.flag.getD ((e.score.map Py.render).getD "Unknown")
                     rating := determine_rating_from_flag e.flag } :=
      List.mem_singleton.mp hs
    subst hs2
    show determine_rating_from_flag e.flag = .good
    rw [hf]
    decide

/-- Witness for C5 at a red category containing a high-flagged element. -/
theorem ratings_derive_from_own_colour_and_flag_witness :
    (create_score_from_item redFlagItem).rating = .bad
  ∧ ((create_scores_from_elements [highElement]).headD defaultScore).rating = .good := by
  constructor
  · exact ratings_derive_from_own_colour_and_flag.2.2.1 redFlagItem rfl
  · exact ratings_derive_from_own_colour_and_flag.2.2.2 highElement rfl
      ((create_scores_from_elements [highElement]).headD defaultScore) (by decide)

/-- Claim C6: `get_scorecard` propagates any fetch error to the caller
unmodified and raises exactly when the fetch raises, whereas
`get_stock_with_scorecard` never raises: it returns the input asset
unchanged with a null scorecard field exactly when the fetch failed. -/
theorem single_item_error_propagation
    (fetch : String → Except String ScorecardResponse) (sid : String) (asset : AssetData) :
    (∀ e, fetch sid = .error e → get_scorecard fetch sid = .error e)
  ∧ (∀ r, fetch sid = .ok r →
      get_scorecard fetch sid = .ok (transform_scorecard_response r))
  ∧ ((∃ e, get_scorecard fetch sid = .error e) ↔ ∃ e, fetch sid = .error e)
  ∧ (get_stock_with_scorecard fetch asset).asset = asset
  ∧ ((get_stock_with_scorecard fetch asset).scorecard = none ↔
      ∃ e, fetch asset.sid = .error e)
  ∧ (∀ r, fetch asset.sid = .ok r →
      (get_stock_with_scorecard fetch asset).scorecard
        = some (transform_scorecard_response r)) := by
  refine ⟨?_, ?_, ?_, rfl, ?_, ?_⟩
  · intro e h
    simp [get_scorecard, h, Except.map]
  · intro r h
    simp [get_scorecard, h, Except.map]
  · constructor
    · rintro ⟨e, h⟩
      cases hf : fetch sid with
      | error e2 => exact ⟨e2, rfl⟩
      | ok r =>
        rw [get_scorecard, hf] at h
        simp [Except.map] at h
    · rintro ⟨e, h⟩
      exact ⟨e, by simp [get_scorecard, h, Except.map]⟩
  · show fetch_unit fetch asset.sid = none ↔ _
    constructor
    · intro h
      cases hf : fetch asset.sid with
      | error e => exact ⟨e, rfl⟩
      | ok r => simp [fetch_unit, hf] at h
    · rintro ⟨e, hf⟩
      simp [fetch_unit, hf]
  · intro r h
    show fetch_unit fetch asset.sid = some _
    simp [fetch_unit, h]

/-- Witness for C6 at a fetch collaborator that raises for id "B". -/
theorem single_item_error_propagation_witness :
    get_scorecard wfetch "B" = .error "boom"
  ∧ (get_stock_with_scorecard wfetch wassetB).asset = wassetB
  ∧ (get_stock_with_scorecard wfetch wassetB).scorecard = none
  ∧ get_scorecard wfetch "A" = .ok StockScores.empty := by
  refine ⟨(single_item_error_propagation wfetch "B" wassetB).1 "boom" rfl,
          (single_item_error_propagation wfetch "B" wassetB).2.2.2.1,
          ((single_item_error_propagation wfetch "B" wassetB).2.2.2.2.1).mpr
            ⟨"boom", rfl⟩, ?_⟩
  exact (single_item_error_propagation wfetch "A" wassetB).2.1
    { success := true, data := some [] } rfl

theorem batch_core_scorecards
    (fetch : String → Except String ScorecardResponse) (sids : List String)
    (mw : Int) (hcb : Bool) (order : List Nat)
    (hmw : 0 < mw) (hord : order.Perm (List.range sids.length)) :
    ((get_scorecards fetch sids mw hcb order).result.map List.length = .ok sids.length)
  ∧ ∀ i : Fin sids.length,
      (get_scorecards fetch sids mw hcb order).result.map (fun out => out[i.val]?)
        = .ok (some (fetch_unit fetch (sids.get i))) := by
  have hnle : ¬ mw ≤ 0 := not_le.mpr hmw
  by_cases hemp : sids.isEmpty = true
  · have hnil : sids = [] := List.isEmpty_iff.mp hemp
    subst hnil
    refine ⟨by simp [get_scorecards, hnle, Except.map], ?_⟩
    intro i
    exact absurd i.isLt (Nat.not_lt_zero i.val)
  · have hres : (get_scorecards fetch sids mw hcb order).result
        = .ok (run_order (sid_unit fetch sids) order
            (List.replicate sids.length (none : Option StockScores))) := by
      simp [get_scorecards, hnle, hemp]
    constructor
    · rw [hres]
      simp [Except.map, run_order_length, List.length_replicate]
    · intro i
      rw [hres]
      simp only [Except.map]
      have hmem : i.val ∈ order := hord.mem_iff.mpr (List.mem_range.mpr i.isLt)
      have hlt : i.val < (List.replicate sids.length (none : Option StockScores)).length := by
        simp [i.isLt]
      rw [run_order_getElem?_mem (sid_unit fetch sids) order _ i.val hmem hlt]
      have hu : sid_unit fetch sids i.val = fetch_unit fetch (sids.get i) := by
        simp [sid_unit, List.getElem?_eq_getElem i.isLt]
      rw [hu]

theorem batch_core_stocks
    (fetch : String → Except String ScorecardResponse) (assets : List AssetData)
    (mw : Int) (hcb : Bool) (order : List Nat)
    (hmw : 0 < mw) (hord : order.Perm (List.range assets.length)) :
    ((get_stocks_with_scorecards fetch assets mw hcb order).result.map List.length
      = .ok assets.length)
  ∧ ∀ i : Fin assets.length,
      (get_stocks_with_scorecards fetch assets mw hcb order).result.map
          (fun out => out[i.val]?)
        = .ok (some (some (get_stock_with_scorecard fetch (assets.get i)))) := by
  have hnle : ¬ mw ≤ 0 := not_le.mpr hmw
  by_cases hemp : assets.isEmpty = true
  · have hnil : assets = [] := List.isEmpty_iff.mp hemp
    subst hnil
    refine ⟨by simp [get_stocks_with_scorecards, hnle, Except.map], ?_⟩
    intro i
    exact absurd i.isLt (Nat.not_lt_zero i.val)
  · have hres : (get_stocks_with_scorecards fetch assets mw hcb order).result
        = .ok (run_order (stock_unit fetch assets) order
            (List.replicate assets.length (none : Option StockWithScorecard))) := by
      simp [get_stocks_with_scorecards, hnle, hemp]
    constructor
    · rw [hres]
      simp [Except.map, run_order_length, List.length_replicate]
    · intro i
      rw [hres]
      simp only [Except.map]
      have hmem : i.val ∈ order := hord.mem_iff.mpr (List.mem_range.mpr i.isLt)
      have hlt : i.val < (List.replicate assets.length (none : Option StockWithScorecard)).length := by
        simp [i.isLt]
      rw [run_order_getElem?_mem (stock_unit fetch assets) order _ i.val hmem hlt]
      have hu : stock_unit fetch assets i.val
          = some (get_stock_with_scorecard fetch (assets.get i)) := by
        simp [stock_unit, List.getElem?_eq_getElem i.isLt]
      rw [hu]

/-- Claim C1: for every input list of ids and every completion order of the
concurrently executed per-id units, `get_scorecards` returns a list whose
length equals the input length and whose element at index i is the result
(the transformed scorecard, or null on fetch failure) for the i-th input
id; output order matches input id order even when workers complete in a
different order. -/
theorem get_scorecards_preserves_input_order
    (fetch : String → Except String ScorecardResponse) (sids : List String)
    (mw : Int) (hcb : Bool) (order : List Nat)
    (hmw : 0 < mw) (hord : order.Perm (List.range sids.length)) :
    ((get_scorecards fetch sids mw hcb order).result.map List.length = .ok sids.length)
  ∧ ∀ i : Fin sids.length,
      (get_scorecards fetch sids mw hcb order).result.map (fun out => out[i.val]?)
        = .ok (some (fetch_unit fetch (sids.get i))) :=
  batch_core_scorecards fetch sids mw hcb order hmw hord

/-- Witness for C1: ids ["A", "B", "C"] with the unit for "B" failing and
completing first (completion order [1, 0, 2]); the output still lines up
with the input order. -/
theorem get_scorecards_preserves_input_order_witness :
    ((get_scorecards wfetch ["A", "B", "C"] 10 true [1, 0, 2]).result.map List.length
      = .ok 3)
  ∧ ((get_scorecards wfetch ["A", "B", "C"] 10 true [1, 0, 2]).result.map
      (fun out => out[1]?) = .ok (some none))
  ∧ ((get_scorecards wfetch ["A", "B", "C"] 10 true [1, 0, 2]).result.map
      (fun out => out[0]?) = .ok (some (some StockScores.empty))) := by
  have h := get_scorecards_preserves_input_order wfetch ["A", "B", "C"] 10 true [1, 0, 2]
    (by decide) (by decide)
  exact ⟨h.1, h.2 ⟨1, by decide⟩, h.2 ⟨0, by decide⟩⟩

/-- Claim C2: if the fetch raises for some id, the batch operations do not
raise and do not abort sibling items: the entry at the failing id's index
is null (for `get_stocks_with_scorecards`, a null scorecard field), while
every other id's entry is the result computed from its own fetch and
transform. -/
theorem batch_partial_failure_isolation
    (fetch : String → Except String ScorecardResponse)
    (sids : List String) (assets : List AssetData) (mw : Int) (hcb : Bool)
    (order order2 : List Nat) (hmw : 0 < mw)
    (hord : order.Perm (List.range sids.length))
    (hord2 : order2.Perm (List.range assets.length)) :
    ((get_scorecards fetch sids mw hcb order).result.map List.length = .ok sids.length)
  ∧ (∀ i : Fin sids.length, ∀ e, fetch (sids.get i) = .error e →
      (get_scorecards fetch sids mw hcb order).result.map (fun out => out[i.val]?)
        = .ok (some none))
  ∧ (∀ i : Fin sids.length, ∀ r, fetch (sids.get i) = .ok r →
      (get_scorecards fetch sids mw hcb order).result.map (fun out => out[i.val]?)
        = .ok (some (some (transform_scorecard_response r))))
  ∧ ((get_stocks_with_scorecards fetch assets mw hcb order2).result.map List.length
      = .ok assets.length)
  ∧ (∀ i : Fin assets.length,
      (get_stocks_with_scorecards fetch assets mw hcb order2).result.map
          (fun out => out[i.val]?)
        = .ok (some (some { asset := assets.get i,
                            scorecard := fetch_unit fetch (assets.get i).sid })))
  ∧ (∀ i : Fin assets.length, ∀ e, fetch (assets.get i).sid = .error e →
      (get_stocks_with_scorecards fetch assets mw hcb order2).result.map
          (fun out => out[i.val]?)
        = .ok (some (some { asset := assets.get i, scorecard := none }))) := by
  obtain ⟨hlen, hget⟩ := batch_core_scorecards fetch sids mw hcb order hmw hord
  obtain ⟨hlen2, hget2⟩ := batch_core_stocks fetch assets mw hcb order2 hmw hord2
  refine ⟨hlen, ?_, ?_, hlen2, ?_, ?_⟩
  · intro i e he
    have h := hget i
    have hu : fetch_unit fetch (sids.get i) = none := by
      unfold fetch_unit
      rw [he]
    rw [hu] at h
    exact h
  · intro i r hr
    have h := hget i
    have hu : fetch_unit fetch (sids.get i) = some (transform_scorecard_response r) := by
      unfold fetch_unit
      rw [hr]
    rw [hu] at h
    exact h
  · intro i
    exact hget2 i
  · intro i e he
    have h := hget2 i
    have hu : fetch_unit fetch (assets.get i).sid = none := by
      unfold fetch_unit
      rw [he]
    have hrw : get_stock_with_scorecard fetch (assets.get i)
        = { asset := assets.get i, scorecard := none } := by
      unfold get_stock_with_scorecard
      rw [hu]
    rw [hrw] at h
    exact h

/-- Witness for C2: ids ["A", "B", "C"] where only "B" fails, completion
order reversed; the failing index is null, its siblings carry their own
results, and the asset batch keeps the asset with a null scorecard. -/
theorem batch_partial_failure_isolation_witness :
    ((get_scorecards wfetch ["A", "B", "C"] 2 true [2, 1, 0]).result.map
      (fun out => out[1]?) = .ok (some none))
  ∧ ((get_scorecards wfetch ["A", "B", "C"] 2 true [2, 1, 0]).result.map
      (fun out => out[0]?) = .ok (some (some StockScores.empty)))
  ∧ ((get_stocks_with_scorecards wfetch [wassetB] 2 true [0]).result.map
      (fun out => out[0]?) = .ok (some (some { asset := wassetB, scorecard := none }))) := by
  have h := batch_partial_failure_isolation wfetch ["A", "B", "C"] [wassetB] 2 true
    [2, 1, 0] [0] (by decide) (by decide) (by decide)
  refine ⟨h.2.1 ⟨1, by decide⟩ "boom" rfl, ?_, h.2.2.2.2.2 ⟨0, by decide⟩ "boom" rfl⟩
  exact h.2.2.1 ⟨0, by decide⟩ { success := true, data := some [] } rfl

/-- Claim C7: with a progress callback supplied, a batch call over n ids
invokes the callback exactly n times, exactly once after each unit of work
completes (whether it succeeded or failed), with the running completed
count, the total n and the id just completed; without a callback the
orchestrator runs silently. -/
theorem progress_callback_exactly_once_per_unit
    (fetch : String → Except String ScorecardResponse) (sids : List String)
    (mw : Int) (order : List Nat)
    (hmw : 0 < mw) (hord : order.Perm (List.range sids.length)) :
    ((get_scorecards fetch sids mw true order).events).length = sids.length
  ∧ (∀ e ∈ (get_scorecards fetch sids mw true order).events, e.total = sids.length)
  ∧ ((get_scorecards fetch sids mw true order).events).map ProgressEvent.completed
      = List.range' 1 sids.length
  ∧ ((get_scorecards fetch sids mw true order).events).map ProgressEvent.sid
      = order.map (fun idx => (sids[idx]?).getD "")
  ∧ (((get_scorecards fetch sids mw true order).events).map ProgressEvent.sid).Perm sids
  ∧ (get_scorecards fetch sids mw false order).events = [] := by
  have hnle : ¬ mw ≤ 0 := not_le.mpr hmw
  have horder_len : order.length = sids.length := by
    simpa using hord.length_eq
  by_cases hemp : sids.isEmpty = true
  · have hnil : sids = [] := List.isEmpty_iff.mp hemp
    subst hnil
    have honil : order = [] := List.length_eq_zero.mp (by simpa using horder_len)
    subst honil
    refine ⟨?_, ?_, ?_, ?_, ?_, ?_⟩ <;> simp [get_scorecards, hnle, List.range']
  · have hev : (get_scorecards fetch sids mw true order).events
        = progress_trace sids.length sids 0 order := by
      simp [get_scorecards, hnle, hemp]
    refine ⟨?_, ?_, ?_, ?_, ?_, ?_⟩
    · rw [hev, progress_trace_length, horder_len]
    · intro e he
      rw [hev] at he
      exact progress_trace_total_eq sids.length sids order 0 e he
    · rw [hev, progress_trace_map_completed, horder_len]
    · rw [hev, progress_trace_map_sid]
    · rw [hev, progress_trace_map_sid]
      have h1 := hord.map fun idx => (sids[idx]?).getD ""
      rw [map_range_getD sids ""] at h1
      exact h1
    · simp [get_scorecards, hnle, hemp]

/-- Witness for C7: two ids completing in reversed order produce exactly
two callback invocations with running counts 1 and 2 and the completed
ids in completion order; no callback means no events. -/
theorem progress_callback_exactly_once_per_unit_witness :
    ((get_scorecards wfetch ["A", "B"] 1 true [1, 0]).events).length = 2
  ∧ ((get_scorecards wfetch ["A", "B"] 1 true [1, 0]).events).map ProgressEvent.completed
      = [1, 2]
  ∧ ((get_scorecards wfetch ["A", "B"] 1 true [1, 0]).events).map ProgressEvent.sid
      = ["B", "A"]
  ∧ (get_scorecards wfetch ["A", "B"] 1 false [1, 0]).events = [] := by
  have h := progress_callback_exactly_once_per_unit wfetch ["A", "B"] 1 [1, 0]
    (by decide) (by decide)
  refine ⟨h.1, ?_, ?_, h.2.2.2.2.2⟩
  · rw [h.2.2.1]
    decide
  · rw [h.2.2.2.1]
    decide

/-- Claim C8: for every non-positive worker count the batch operations
reject the input eagerly, before any fetch is attempted, any progress is
reported or any worker dispatched. -/
theorem nonpositive_workers_rejected_eagerly
    (fetch : String → Except String ScorecardResponse)
    (sids : List String) (assets : List AssetData) (mw : Int) (hcb : Bool)
    (order : List Nat) (hmw : mw ≤ 0) :
    (get_scorecards fetch sids mw hcb order).result
      = .error "max_workers must be greater than 0"
  ∧ (get_scorecards fetch sids mw hcb order).fetched = []
  ∧ (get_scorecards fetch sids mw hcb order).events = []
  ∧ (get_stocks_with_scorecards fetch assets mw hcb order).result
      = .error "max_workers must be greater than 0"
  ∧ (get_stocks_with_scorecards fetch assets mw hcb order).fetched = []
  ∧ (get_stocks_with_scorecards fetch assets mw hcb order).events = [] := by
  refine ⟨?_, ?_, ?_, ?_, ?_, ?_⟩ <;>
    simp [get_scorecards, get_stocks_with_scorecards, hmw]

/-- Witness for C8 at max_workers zero with one pending id. -/
theorem nonpositive_workers_rejected_eagerly_witness :
    (get_scorecards wfetch ["TCS"] 0 true [0]).result
      = .error "max_workers must be greater than 0"
  ∧ (get_scorecards wfetch ["TCS"] 0 true [0]).fetched = []
  ∧ (get_stocks_with_scorecards wfetch [wassetB] 0 true [0]).result
      = .error "max_workers must be greater than 0"
  ∧ (get_stocks_with_scorecards wfetch [wassetB] 0 true [0]).events = [] := by
  have h := nonpositive_workers_rejected_eagerly wfetch ["TCS"] [wassetB] 0 true [0]
    (by decide)
  exact ⟨h.1, h.2.1, h.2.2.2.1, h.2.2.2.2.2⟩

/-- Claim C9 counterexample: the raw-model validation of `ScorecardItem`
accepts an item of kind "score" whose elements list is not empty, so the
score/elements exclusivity invariant is not maintained by validation. -/
theorem scorecard_item_validation_accepts_exclusivity_violation :
    validate_scorecard_item badItemPy = .ok expectedBadItem
  ∧ expectedBadItem.type = "score"
  ∧ expectedBadItem.elements.length = 1
  ∧ expectedBadItem.elements ≠ [] := by
  refine ⟨rfl, rfl, rfl, ?_⟩
  simp [expectedBadItem]

/-- Claim C9 amended: `ScorecardItem` validation checks field presence and
field types only; it accepts items violating the score/elements
exclusivity (a "score" item with elements, an "entryPoint" item with a
ScoreData sub-object) while still rejecting payloads whose required fields
are missing — the exclusivity is a documented property of the API data,
not a validation invariant. -/
theorem scorecard_item_validation_checks_types_only :
    (validate_scorecard_item badItemPy).isOk = true
  ∧ (validate_scorecard_item entryWithScorePy).isOk = true
  ∧ (validate_scorecard_item missingNamePy).isOk = false :=
  ⟨rfl, rfl, rfl⟩

/-- Claim C10: the period validation of `MarketMoodIndex.get_mmi_trends`
raises ValueError exactly when the argument is not an int or lies outside
1 and 10 inclusive; every integer period in range, the default 10
included, passes the check. -/
theorem mmi_trends_period_validation :
    (∀ p : PyPeriod, (∃ e, get_mmi_trends_period_check p = .error e)
        ↔ (p = .nonInt ∨ ∃ n, p = .int n ∧ ¬(1 ≤ n ∧ n ≤ 10)))
  ∧ (∀ n : Int, 1 ≤ n → n ≤ 10 → get_mmi_trends_period_check (.int n) = .ok ())
  ∧ get_mmi_trends_period_check (.int mmiTrendsDefaultPeriod) = .ok () := by
  refine ⟨?_, ?_, rfl⟩
  · intro p
    cases p with
    | int n =>
      by_cases h : 1 ≤ n ∧ n ≤ 10
      · simp [get_mmi_trends_period_check, h]
      · simp [get_mmi_trends_period_check, h]
        omega
    | nonInt => simp [get_mmi_trends_period_check]
  · intro n h1 h2
    simp [get_mmi_trends_period_check, h1, h2]

/-- Witness for C10: the period check passes at 5 and at the default 10. -/
theorem mmi_trends_period_validation_witness :
    get_mmi_trends_period_check (.int 5) = .ok ()
  ∧ get_mmi_trends_period_check (.int mmiTrendsDefaultPeriod) = .ok () :=
  ⟨mmi_trends_period_validation.2.1 5 (by decide) (by decide),
   mmi_trends_period_validation.2.2⟩
